import Mathlib

/-!
Verification of the CME arrival-time pipeline (catpumajs).

The repository contains two near-duplicate JavaScript pipeline variants:
`src/main.js` and `src/unnamed/part_000`.  This file gives a shallow
embedding of the functions the claims are about and proves or refutes
each claim.

Modelling conventions:
* JavaScript numbers are modelled by `ℚ` (all the values the claims touch
  are small decimal numerals, exactly representable; double-rounding
  artifacts are irrelevant at the precision the claims use).
* A column cell (a whitespace-split token of the data file, or `undefined`
  for a short row) is modelled by the pair of its `parseInt` and
  `parseFloat` results, `none` standing for `NaN`.  The code interacts
  with a cell only through these two coercions.
* `main.js`'s `getMean` loop has no in-loop bound and can diverge, so it
  is embedded with an explicit fuel argument returning `Option ℚ`
  (`none` = the loop has not finished within `fuel` iterations).
* `part_000`'s `getMean` loop always terminates (the width bound is
  checked inside the loop); it is embedded as a total function whose
  recursion is driven by a Nat that mirrors the remaining width budget,
  and the lemma `getMeanP0_unfold` proves that the embedding satisfies
  exactly the loop's recurrence.
-/

/-- A data cell as the JS code observes it: the result of `parseInt`
(`pInt`, `none` = NaN) and of `parseFloat` (`pFloat`, `none` = NaN). -/
structure Cell where
  pInt : Option Int
  pFloat : Option ℚ
deriving DecidableEq

/-- Truncation toward zero, the value `parseInt` yields on a plain
decimal numeral string. -/
def jsTrunc (q : ℚ) : Int :=
  if 0 ≤ q then Int.floor q else Int.ceil q

/-- The cell for a plain decimal numeral string with value `q`
(e.g. "999", "-3.7"): `parseInt` reads the integer prefix, i.e. the
truncation, `parseFloat` reads the full value. -/
def Cell.ofNum (q : ℚ) : Cell :=
  ⟨some (jsTrunc q), some q⟩

/-- The cell for a non-numeric token ("abc", "", `undefined`):
both coercions give NaN. -/
def Cell.nonNum : Cell :=
  ⟨none, none⟩

/-- JavaScript `array.slice(start, stop)` on integer arguments:
negative indices count from the end, then clamp to `[0, length]`. -/
def jsSlice (a : List Cell) (start stop : Int) : List Cell :=
  let L : Int := a.length
  let s : Int := if start < 0 then max (L + start) 0 else min start L
  let e : Int := if stop < 0 then max (L + stop) 0 else min stop L
  (a.drop s.toNat).take (e - s).toNat

/-- The filter predicate both variants use, verbatim from
`value => parseInt(value) !== nullValue && !isNaN(parseFloat(value))`.
Note the sentinel test uses `parseInt` while the validity test uses
`parseFloat` (`NaN !== nullValue` is true, hence `c.pInt ≠ some nv`). -/
def validCell (nv : Int) (c : Cell) : Bool :=
  (c.pInt != some nv) && c.pFloat.isSome

/-- The filtered segment `array.slice(low, high + 1).filter(...)`. -/
def segAt (a : List Cell) (nv : Int) (low high : Int) : List Cell :=
  (jsSlice a low (high + 1)).filter (validCell nv)

/-- `segment.reduce((sum, v) => sum + parseFloat(v), 0) / segment.length`. -/
def segMean (seg : List Cell) : ℚ :=
  (seg.map (fun c => c.pFloat.getD 0)).sum / (seg.length : ℚ)

/-- Numeric value of `x.toFixed(5)`: round to 5 decimal digits, ties
away from the smaller candidate (JS picks the larger n on a tie). -/
def round5 (q : ℚ) : ℚ :=
  (Int.floor (q * 100000 + 1 / 2) : ℚ) / 100000

/-- Numeric value of the fallback `1e-5` (and of `(1e-5).toFixed(5)`). -/
def fallback : ℚ := 1 / 100000

/-- Loop of `part_000`'s `getMean`.  The Nat argument mirrors the
remaining width budget `24 - (high - low)` and only drives the
structural recursion; the wrapper `getMeanP0` instantiates it so that
the `fallback` arms for fuel `0`/`1` are unreachable (see
`getMeanP0_unfold`, which recovers the loop's exact recurrence).

Loop body of the source: compute the filtered segment; if non-empty the
mean exits the loop (and the trailing `if (high - low > 24)` mutates it
to `1e-5` when the width already exceeds 24); otherwise widen one index
on each side and, if the widened width exceeds 24, exit with `1e-5`. -/
def p0go (a : List Cell) (nv : Int) : Nat → Int → Int → ℚ
  | n, low, high =>
    if (segAt a nv low high).length ≠ 0 then
      if high - low > 24 then fallback else round5 (segMean (segAt a nv low high))
    else if high - low + 2 > 24 then fallback
    else
      match n with
      | m + 2 => p0go a nv m (low - 1) (high + 1)
      | _ => fallback

/-- `getMean` of `src/unnamed/part_000` (returns
`parseFloat(avg.toFixed(5))`). -/
def getMeanP0 (a : List Cell) (low high : Int) (nv : Int) : ℚ :=
  p0go a nv (24 - (high - low)).toNat low high

/-- Loop of `main.js`'s `getMean`, fuel-bounded because the source loop
has no in-loop width bound: with `flag = false` (input was ordered) only
`low` is decremented, with `flag = true` (input was reversed) only
`high` is incremented.  On exit the trailing `if (high - low > 24)`
replaces the average by `1e-5`.  `none` means the loop has not exited
within `fuel` iterations. -/
def mainGo (a : List Cell) (nv : Int) (flag : Bool) : Nat → Int → Int → Option ℚ
  | 0, _, _ => none
  | fuel + 1, low, high =>
    if (segAt a nv low high).length ≠ 0 then
      some (if high - low > 24 then fallback
            else round5 (segMean (segAt a nv low high)))
    else
      if flag then mainGo a nv flag fuel low (high + 1)
      else mainGo a nv flag fuel (low - 1) high

/-- `getMean` of `src/main.js` (returns `avg.toFixed(5)`, a decimal
string; we model its numeric value): a reversed range is first swapped
and remembered in `flag`. -/
def getMeanMain (fuel : Nat) (a : List Cell) (low high : Int) (nv : Int) : Option ℚ :=
  if low > high then mainGo a nv true fuel high low
  else mainGo a nv false fuel low high

/-- Modelled from the spec (the canonical design of §4.2/§9, for
comparison in claim C3 only): normalize the order of a reversed range,
then widen symmetrically with the in-loop width-24 bound — i.e. exactly
the `part_000` loop run on the normalized range. -/
def getMeanSym (a : List Cell) (low high : Int) (nv : Int) : ℚ :=
  if low > high then getMeanP0 a high low nv else getMeanP0 a low high nv

/-! ### Basic lemmas about the aggregator embeddings -/

/-- Every cell of a slice is a cell of the array. -/
lemma mem_of_mem_jsSlice {a : List Cell} {s e : Int} {c : Cell}
    (h : c ∈ jsSlice a s e) : c ∈ a := by
  unfold jsSlice at h
  exact List.drop_subset _ _ (List.take_subset _ _ h)

/-- If every cell of the column fails the filter, every filtered
segment is empty. -/
lemma segAt_eq_nil_of_allInvalid {a : List Cell} {nv : Int}
    (h : ∀ c ∈ a, validCell nv c = false) (low high : Int) :
    segAt a nv low high = [] := by
  unfold segAt
  apply List.filter_eq_nil_iff.mpr
  intro c hc
  simp [h c (mem_of_mem_jsSlice hc)]

/-- Unfolding of `p0go` at fuel of the shape `m + 2`. -/
lemma p0go_succ2 (a : List Cell) (nv : Int) (m : Nat) (low high : Int) :
    p0go a nv (m + 2) low high =
      if (segAt a nv low high).length ≠ 0 then
        if high - low > 24 then fallback else round5 (segMean (segAt a nv low high))
      else if high - low + 2 > 24 then fallback
      else p0go a nv m (low - 1) (high + 1) := by
  rw [p0go]

/-- Unfolding of `p0go` at fuel `0` or `1` (unreachable from
`getMeanP0`, see `getMeanP0_unfold`). -/
lemma p0go_small (a : List Cell) (nv : Int) (n : Nat) (hn : n < 2) (low high : Int) :
    p0go a nv n low high =
      if (segAt a nv low high).length ≠ 0 then
        if high - low > 24 then fallback else round5 (segMean (segAt a nv low high))
      else if high - low + 2 > 24 then fallback
      else fallback := by
  match n, hn with
  | 0, _ =>
    rw [p0go]
    intro m hm
    omega
  | 1, _ =>
    rw [p0go]
    intro m hm
    omega

/-- The `part_000` embedding satisfies exactly the source loop's
recurrence: non-empty segment → the (possibly overwritten) mean; empty
segment and widened width beyond 24 → fallback; otherwise retry on the
range widened by one on each side.  This is the faithfulness lemma for
the fuel device in `p0go`. -/
lemma getMeanP0_unfold (a : List Cell) (nv low high : Int) :
    getMeanP0 a low high nv =
      if (segAt a nv low high).length ≠ 0 then
        if high - low > 24 then fallback else round5 (segMean (segAt a nv low high))
      else if high - low + 2 > 24 then fallback
      else getMeanP0 a (low - 1) (high + 1) nv := by
  by_cases hw : high - low + 2 > 24
  · have hn : (24 - (high - low)).toNat < 2 := by omega
    unfold getMeanP0
    rw [p0go_small a nv _ hn]
    by_cases hseg : (segAt a nv low high).length ≠ 0
    · rw [if_pos hseg, if_pos hseg]
    · rw [if_neg hseg, if_neg hseg, if_pos hw, if_pos hw]
  · have hm : (24 - (high - low)).toNat = ((24 - ((high + 1) - (low - 1))).toNat) + 2 := by
      omega
    unfold getMeanP0
    rw [hm, p0go_succ2]

/-- On an all-invalid column, `main.js`'s loop never exits: whatever the
fuel, the flag and the bounds, the result is `none`. -/
lemma mainGo_none_of_allInvalid {a : List Cell} {nv : Int}
    (h : ∀ c ∈ a, validCell nv c = false) :
    ∀ (fuel : Nat) (flag : Bool) (low high : Int),
      mainGo a nv flag fuel low high = none := by
  intro fuel
  induction fuel with
  | zero => intro flag low high; rw [mainGo]
  | succ n ih =>
    intro flag low high
    rw [mainGo]
    simp [segAt_eq_nil_of_allInvalid h]
    cases flag <;> simp [ih]

/-- On an all-invalid column, `part_000`'s loop reaches the width bound
and returns the fallback, whatever the bounds. -/
lemma p0go_fallback_of_allInvalid {a : List Cell} {nv : Int}
    (h : ∀ c ∈ a, validCell nv c = false) :
    ∀ (n : Nat) (low high : Int), p0go a nv n low high = fallback := by
  intro n
  induction n using Nat.strong_induction_on with
  | _ n ih =>
    intro low high
    rcases n with _ | _ | m
    · rw [p0go_small a nv 0 (by omega)]
      simp [segAt_eq_nil_of_allInvalid h]
    · rw [p0go_small a nv 1 (by omega)]
      simp [segAt_eq_nil_of_allInvalid h]
    · rw [p0go_succ2]
      simp [segAt_eq_nil_of_allInvalid h]
      intro hw
      exact ih m (by omega) (low - 1) (high + 1)

/-! ### Feature-vector builders (`getSvmInput`, both variants) -/

/-- The caller-supplied event scalars plus the solar-wind snapshot
(`info.Wind`).  A field is `none` when the corresponding key is absent
from the JS object (`undefined`); the snapshot is an association list
keyed by the short quantity names `Bz`, `Ratio`, `V`, `Lat`, `P`,
`Lon`, `Bx`, `T` (empty when the data fetch failed). -/
structure CmeInfo where
  speed : Option ℚ
  speedFinal : Option ℚ
  width : Option ℚ
  mass : Option ℚ
  pa : Option ℚ
  acceleration : Option ℚ
  srcLat : Option ℚ
  srcLon : Option ℚ
  speed20 : Option ℚ
  wind : List (String × ℚ)
deriving DecidableEq

/-- Lookup in the snapshot object (`info.Wind[key]`). -/
def windLookup : List (String × ℚ) → String → Option ℚ
  | [], _ => none
  | (k, v) :: rest, f => if k = f then some v else windLookup rest f

/-- The `featureMap` of `main.js`'s `getSvmInput`: nine CME display
names, each bound to the (possibly `undefined`) event scalar. -/
def featureMapMain (info : CmeInfo) (f : String) : Option ℚ :=
  if f = "CME Acceleration" then info.acceleration
  else if f = "CME Angular Width" then info.width
  else if f = "CME Average Speed" then info.speed
  else if f = "CME Final Speed" then info.speedFinal
  else if f = "CME Mass" then info.mass
  else if f = "CME Position Angle" then info.pa
  else if f = "CME Source Region Latitude" then info.srcLat
  else if f = "CME Source Region Longitude" then info.srcLon
  else if f = "CME Speed at 20 Rs" then info.speed20
  else none

/-- The `featureMap` of `part_000`'s `getSvmInput`: five CME display
names bound to event scalars and seven solar-wind display names bound
to `info.Wind[shortKey]`. -/
def featureMapP0 (info : CmeInfo) (f : String) : Option ℚ :=
  if f = "CME Average Speed" then info.speed
  else if f = "CME Final Speed" then info.speedFinal
  else if f = "CME Angular Width" then info.width
  else if f = "CME Mass" then info.mass
  else if f = "CME Position Angle" then info.pa
  else if f = "Solar Wind Bz" then windLookup info.wind ("Bz")
  else if f = "Solar Wind Speed" then windLookup info.wind ("V")
  else if f = "Solar Wind Temperature" then windLookup info.wind ("T")
  else if f = "Solar Wind Pressure" then windLookup info.wind ("P")
  else if f = "Solar Wind Longitude" then windLookup info.wind ("Lon")
  else if f = "Solar Wind He Proton Ratio" then windLookup info.wind ("Ratio")
  else if f = "Solar Wind Bx" then windLookup info.wind ("Bx")
  else none

/-- Lexicographic insertion, auxiliary for `sortJs`. -/
def insertLe (s : String) : List String → List String
  | [] => [s]
  | t :: ts => if s ≤ t then s :: t :: ts else t :: insertLe s ts

/-- `features.sort()`: JS default sort compares strings by code units;
on the ASCII feature names this is the lexicographic order.  (Equal
keys are identical strings, so any correct sort yields the same list.) -/
def sortJs : List String → List String
  | [] => []
  | s :: ss => insertLe s (sortJs ss)

/-- `getSvmInput` of `src/main.js` (the inner array of the returned
`[x]`): the request is sorted in place, then each name is pushed if it
resolves in `featureMap`, else if it resolves in `info.Wind` under the
full display name, else skipped. -/
def getSvmInputMain (info : CmeInfo) (fs : List String) : List ℚ :=
  (sortJs fs).foldl
    (fun x f =>
      match featureMapMain info f with
      | some v => x ++ [v]
      | none =>
        match windLookup info.wind f with
        | some v => x ++ [v]
        | none => x)
    []

/-- `getSvmInput` of `src/unnamed/part_000` (the list wrapped by
`tf.tensor2d([x])`): each requested name in request order, the combined
`featureMap` value if defined, else the default `0.0`. -/
def getSvmInputP0 (info : CmeInfo) (fs : List String) : List ℚ :=
  fs.foldl (fun x f => x ++ [(featureMapP0 info f).getD 0]) []

/-- One name of the `main.js` builder resolves to: `featureMap` first,
then the snapshot under the display name, else nothing. -/
def resolveMain (info : CmeInfo) (f : String) : Option ℚ :=
  match featureMapMain info f with
  | some v => some v
  | none => windLookup info.wind f

lemma foldl_push_map (g : String → ℚ) :
    ∀ (l : List String) (acc : List ℚ),
      l.foldl (fun x f => x ++ [g f]) acc = acc ++ l.map g := by
  intro l
  induction l with
  | nil => intro acc; simp
  | cons f rest ih => intro acc; simp [List.foldl_cons, ih]

lemma foldl_push_filterMap (g : String → Option ℚ) :
    ∀ (l : List String) (acc : List ℚ),
      l.foldl
        (fun x f => match g f with | some v => x ++ [v] | none => x) acc
        = acc ++ l.filterMap g := by
  intro l
  induction l with
  | nil => intro acc; simp
  | cons f rest ih =>
    intro acc
    rcases hg : g f with _ | v <;> simp [List.foldl_cons, hg, ih]

/-- The `part_000` builder is the in-order map of the combined lookup
with default `0.0`. -/
lemma svmInputP0_eq_map (info : CmeInfo) (fs : List String) :
    getSvmInputP0 info fs = fs.map (fun f => (featureMapP0 info f).getD 0) := by
  unfold getSvmInputP0
  rw [foldl_push_map]
  rfl

/-- The `main.js` builder sorts the request, then keeps only the names
that resolve. -/
lemma svmInputMain_eq_filterMap (info : CmeInfo) (fs : List String) :
    getSvmInputMain info fs = (sortJs fs).filterMap (resolveMain info) := by
  unfold getSvmInputMain
  have hbody : (fun (x : List ℚ) (f : String) =>
      match featureMapMain info f with
      | some v => x ++ [v]
      | none =>
        match windLookup info.wind f with
        | some v => x ++ [v]
        | none => x)
      = fun x f => match resolveMain info f with | some v => x ++ [v] | none => x := by
    funext x f
    unfold resolveMain
    rcases featureMapMain info f with _ | v
    · rcases windLookup info.wind f with _ | w <;> rfl
    · rfl
  rw [hbody, foldl_push_filterMap]
  rfl

/-! ### Time-index resolver and arrival-time calculator -/

/-- A parsed `YYYY-MM-DDTHH:mm:ss` timestamp (what `moment(time)` holds,
to second precision; string parsing itself is external calendar
machinery and out of scope). -/
structure DateTime where
  year : Int
  month : Int
  day : Int
  hour : Int
  minute : Int
  second : Int
deriving DecidableEq

/-- Gregorian leap-year test. -/
def isLeap (y : Int) : Bool :=
  y % 4 == 0 && (y % 100 != 0 || y % 400 == 0)

/-- Days in the months before month `m` (1-based) of year `y`. -/
def daysBeforeMonth (y m : Int) : Int :=
  let lp : Int := if isLeap y then 1 else 0
  if m = 1 then 0
  else if m = 2 then 31
  else if m = 3 then 59 + lp
  else if m = 4 then 90 + lp
  else if m = 5 then 120 + lp
  else if m = 6 then 151 + lp
  else if m = 7 then 181 + lp
  else if m = 8 then 212 + lp
  else if m = 9 then 243 + lp
  else if m = 10 then 273 + lp
  else if m = 11 then 304 + lp
  else 334 + lp

/-- Zero-based day-of-year offset of a timestamp. -/
def dayOfYear0 (t : DateTime) : Int :=
  daysBeforeMonth t.year t.month + t.day - 1

/-- Seconds since January 1, 00:00:00 of the timestamp's own year. -/
def yearSecs (t : DateTime) : Int :=
  dayOfYear0 t * 86400 + t.hour * 3600 + t.minute * 60 + t.second

/-- January 1, 00:00:00 of year `y`. -/
def jan1 (y : Int) : DateTime :=
  ⟨y, 1, 1, 0, 0, 0⟩

/-- The time-index resolver of `readOmni` (both variants):
`doy = moment(time).diff(moment(year + "-01-01"), "days")` — the
millisecond difference divided by one day, truncated toward zero —
then `idx = doy * 24 + hour`. -/
def readOmniIdx (t : DateTime) : Int :=
  let doy := Int.tdiv (yearSecs t - yearSecs (jan1 t.year)) 86400
  doy * 24 + t.hour

/-- Rebuild a timestamp of year `y` from seconds since January 1,
00:00:00 of that year (used on concrete in-range values only). -/
def ofYearSecs (y : Int) (s : Int) : DateTime :=
  let d := s / 86400
  let r := s % 86400
  let doy1 := d + 1
  let lp : Int := if isLeap y then 1 else 0
  let m : Int :=
    if doy1 ≤ 31 then 1
    else if doy1 ≤ 59 + lp then 2
    else if doy1 ≤ 90 + lp then 3
    else if doy1 ≤ 120 + lp then 4
    else if doy1 ≤ 151 + lp then 5
    else if doy1 ≤ 181 + lp then 6
    else if doy1 ≤ 212 + lp then 7
    else if doy1 ≤ 243 + lp then 8
    else if doy1 ≤ 273 + lp then 9
    else if doy1 ≤ 304 + lp then 10
    else if doy1 ≤ 334 + lp then 11
    else 12
  ⟨y, m, doy1 - daysBeforeMonth y m, r / 3600, r % 3600 / 60, r % 60⟩

/-- Whole seconds of `moment(t).add(travel, "hours")`: the transit time
in hours (fractional) converted to seconds and added, truncated to the
second by the `YYYY-MM-DDTHH:mm:ss` format. -/
def arrivalSecs (t : DateTime) (travel : ℚ) : Int :=
  Int.floor ((yearSecs t : ℚ) + travel * 3600)

/-- The arrival-time computation of both `main` entry points:
`moment(time).add(travel, "hours").format("YYYY-MM-DDTHH:mm:ss")`,
applied unconditionally to the predicted transit time — the source has
no validation branch and no failure path.  (Same-year arithmetic, which
covers every claim instance.) -/
def addHours (t : DateTime) (travel : ℚ) : DateTime :=
  ofYearSecs t.year (arrivalSecs t travel)

/-- The hard-coded example onset of both entry points. -/
def onsetEx : DateTime := ⟨2015, 12, 28, 12, 12, 0⟩

/-! ### Claim C1 — termination of the aggregator -/

/-- C1: the claim says `getMean` terminates for every column, range and
sentinel, returning a finite number or exactly `1e-5`, even on
all-sentinel data.  This holds for the `part_000` variant (its loop is
total, second conjunct), but the `main.js` variant diverges on the
all-sentinel single-cell column `["999"]` with range `[0, 0]`: its
width-24 test sits after the `while` loop, so the loop never exits —
for every fuel bound the loop is still running. -/
theorem getMean_main_diverges_on_all_sentinel :
    (∀ fuel : Nat, getMeanMain fuel [Cell.ofNum 999] 0 0 999 = none)
    ∧ getMeanP0 [Cell.ofNum 999] 0 0 999 = fallback := by
  have hinv : ∀ c ∈ [Cell.ofNum 999], validCell 999 c = false := by decide
  constructor
  · intro fuel
    unfold getMeanMain
    rw [if_neg (by norm_num)]
    exact mainGo_none_of_allInvalid hinv fuel false 0 0
  · exact p0go_fallback_of_allInvalid hinv _ 0 0

/-! ### Claim C5 — the two numeric coercions of the filter -/

/-- C5 counterexample: the claim says one coercion is applied in both
the sentinel test and the validity test, so a numeric value whose
truncated integer part equals the sentinel but whose float value does
not (here "999.5" against sentinel 999) is never excluded.  In the code
the sentinel test uses `parseInt` ("999.5" ↦ 999), so the cell is
excluded and the single-cell mean falls back to `1e-5` instead of
999.5. -/
theorem getMean_excludes_truncation_match :
    validCell 999 (Cell.ofNum (1999 / 2)) = false
    ∧ (1999 / 2 : ℚ) ≠ (999 : ℚ)
    ∧ getMeanP0 [Cell.ofNum (1999 / 2)] 0 0 999 = fallback := by
  have hc : Cell.ofNum (1999 / 2) = ⟨some 999, some (1999 / 2)⟩ := by
    norm_num [Cell.ofNum, jsTrunc]
  refine ⟨by rw [hc]; rfl, by norm_num, ?_⟩
  apply p0go_fallback_of_allInvalid
  intro c hmem
  have : c = Cell.ofNum (1999 / 2) := by simpa using hmem
  rw [this, hc]
  rfl

/-- C5 (amended): the sentinel-equality test uses the integer coercion
`parseInt` while the numeric-validity test uses `parseFloat`: a cell is
kept if and only if its `parseFloat` value is numeric and its
`parseInt` value differs from the sentinel, so a numeric cell whose
truncated integer part equals the sentinel is excluded even though its
float value differs from the sentinel.  Behaviourally, on a single-cell
column the aggregator returns the rounded cell value exactly when that
predicate holds and the fallback otherwise. -/
theorem getMean_filter_parseInt_sentinel (nv : Int) (c : Cell) :
    (validCell nv c = ((c.pInt != some nv) && c.pFloat.isSome))
    ∧ getMeanP0 [c] 0 0 nv =
        (if validCell nv c then round5 (c.pFloat.getD 0) else fallback) := by
  refine ⟨rfl, ?_⟩
  by_cases h : validCell nv c
  · rw [getMeanP0_unfold]
    have hseg : segAt [c] nv 0 0 = [c] := by
      simp [segAt, jsSlice, List.filter_cons, h]
    rw [hseg]
    simp [h, segMean]
  · simp only [h, if_false]
    apply p0go_fallback_of_allInvalid
    intro x hmem
    have : x = c := by simpa using hmem
    rw [this]
    exact Bool.of_not_eq_true h

/-! ### Claim C4 — fallback exactly at exhaustion -/

/-- C4 counterexample: the claim says the aggregator returns exactly
`1e-5` only when the width-24 widening is exhausted, and never the
fallback once a non-empty segment is found.  But the rounded mean of a
found segment can itself be exactly `1e-5`: on the single-cell column
`["0.00001"]` the segment is non-empty at the initial width 0, yet the
returned value equals the fallback. -/
theorem getMean_p0_mean_can_equal_fallback :
    (segAt [Cell.ofNum (1 / 100000)] 999 0 0).length ≠ 0
    ∧ getMeanP0 [Cell.ofNum (1 / 100000)] 0 0 999 = fallback := by
  have hc : Cell.ofNum (1 / 100000) = ⟨some 0, some (1 / 100000)⟩ := by
    norm_num [Cell.ofNum, jsTrunc]
  have hseg : segAt [Cell.ofNum (1 / 100000)] 999 0 0 = [Cell.ofNum (1 / 100000)] := by
    rw [hc]
    simp [segAt, jsSlice, List.filter_cons, validCell]
  constructor
  · rw [hseg]; simp
  · rw [getMeanP0_unfold, hseg]
    simp only [segMean, hc, round5, fallback]
    norm_num

/-- Exhaustion lemma: if every window the symmetric widening can
examine (the initial one, and every widened one of width at most 24)
has an empty filtered segment, the `part_000` aggregator returns the
fallback. -/
lemma getMeanP0_exhaust (a : List Cell) (nv : Int) :
    ∀ (n : Nat) (low high : Int), (24 - (high - low)).toNat = n →
      (∀ k : Nat, (k = 0 ∨ high - low + 2 * (k : Int) ≤ 24) →
        segAt a nv (low - k) (high + k) = []) →
      getMeanP0 a low high nv = fallback := by
  intro n
  induction n using Nat.strong_induction_on with
  | _ n ih =>
    intro low high hn hwin
    rw [getMeanP0_unfold]
    have h0 : segAt a nv low high = [] := by
      have := hwin 0 (Or.inl rfl)
      simpa using this
    rw [h0]
    simp only [List.length_nil, ne_eq, not_true_eq_false, if_false]
    by_cases hw : high - low + 2 > 24
    · rw [if_pos hw]
    · rw [if_neg hw]
      apply ih (24 - ((high + 1) - (low - 1))).toNat (by omega) _ _ rfl
      intro k hk
      have hcond : ((k + 1 : Nat) = 0) ∨ (high - low + 2 * ((k + 1 : Nat) : Int) ≤ 24) := by
        rcases hk with hk0 | hkle
        · subst hk0
          right
          push_cast
          omega
        · right
          push_cast
          omega
      have := hwin (k + 1) hcond
      have harg : low - ((k + 1 : Nat) : Int) = low - 1 - k := by push_cast; ring
      have harg2 : high + ((k + 1 : Nat) : Int) = high + 1 + k := by push_cast; ring
      rw [harg, harg2] at this
      exact this

/-- C4 (amended): the `part_000` aggregator returns exactly `1e-5`
whenever the symmetric widening exhausts width 24 with every examined
segment empty; whenever the filtered segment of the current range is
non-empty and the width is at most 24 it returns that segment's mean
rounded to 5 decimal digits — a value that can itself equal `1e-5`
(see the counterexample), so "never the fallback" does not hold.
(The `main.js` variant applies the width test only after its loop; its
divergence is the subject of C1.) -/
theorem getMean_p0_fallback_on_exhaustion (a : List Cell) (low high nv : Int) :
    ((∀ k : Nat, (k = 0 ∨ high - low + 2 * (k : Int) ≤ 24) →
        segAt a nv (low - k) (high + k) = []) →
      getMeanP0 a low high nv = fallback)
    ∧ ((segAt a nv low high).length ≠ 0 → high - low ≤ 24 →
      getMeanP0 a low high nv = round5 (segMean (segAt a nv low high))) := by
  constructor
  · exact getMeanP0_exhaust a nv _ low high rfl
  · intro hseg hw
    rw [getMeanP0_unfold, if_pos hseg, if_neg (by omega)]

/-- C4 witness: on the all-invalid column `[nonNum]` the widening
exhausts and the fallback is returned; on `["7"]` the segment is found
at width 0 and the rounded mean is returned. -/
theorem getMean_p0_fallback_on_exhaustion_witness :
    getMeanP0 [Cell.nonNum] 0 0 999 = fallback
    ∧ getMeanP0 [Cell.ofNum 7] 0 0 999 =
        round5 (segMean (segAt [Cell.ofNum 7] 999 0 0)) := by
  constructor
  · exact (getMean_p0_fallback_on_exhaustion [Cell.nonNum] 0 0 999).1
      (fun k _ => segAt_eq_nil_of_allInvalid (by decide) _ _)
  · exact (getMean_p0_fallback_on_exhaustion [Cell.ofNum 7] 0 0 999).2
      (by decide) (by norm_num)

/-! ### Claim C3 — shape of the widening step -/

/-- C3 (amended): the two variants split the claimed behaviour between
them, and neither does both halves.  On an empty filtered segment,
`part_000` widens by exactly one index on each side before retrying —
but it never normalizes a reversed range (the recurrence below holds
for every `low`, `high`, ordered or not).  `main.js` does normalize a
reversed range first (last conjunct), but then widens on one side only:
`low` decreases alone when the input was ordered (`flag = false`), and
`high` increases alone when it was reversed (`flag = true`). -/
theorem getMean_widening_step (a : List Cell) (low high nv : Int) (fuel : Nat) :
    ((segAt a nv low high).length = 0 → high - low + 2 ≤ 24 →
      getMeanP0 a low high nv = getMeanP0 a (low - 1) (high + 1) nv)
    ∧ ((segAt a nv low high).length = 0 →
      mainGo a nv false (fuel + 1) low high = mainGo a nv false fuel (low - 1) high)
    ∧ ((segAt a nv low high).length = 0 →
      mainGo a nv true (fuel + 1) low high = mainGo a nv true fuel low (high + 1))
    ∧ (low > high → getMeanMain fuel a low high nv = mainGo a nv true fuel high low) := by
  refine ⟨?_, ?_, ?_, ?_⟩
  · intro hseg hw
    rw [getMeanP0_unfold]
    simp [hseg, hw]
  · intro hseg
    rw [mainGo]
    simp [hseg]
  · intro hseg
    rw [mainGo]
    simp [hseg]
  · intro hlt
    unfold getMeanMain
    rw [if_pos hlt]

/-- C3 witness: the widening recurrences applied on the all-sentinel
column `["999", "999"]` at range `[0, 0]` with fuel 5, and the
normalization equation at the reversed range `[3, 1]`. -/
theorem getMean_widening_step_witness :
    (getMeanP0 [Cell.ofNum 999, Cell.ofNum 999] 0 0 999
      = getMeanP0 [Cell.ofNum 999, Cell.ofNum 999] (-1) 1 999)
    ∧ (mainGo [Cell.ofNum 999, Cell.ofNum 999] 999 false 6 0 0
      = mainGo [Cell.ofNum 999, Cell.ofNum 999] 999 false 5 (-1) 0)
    ∧ (mainGo [Cell.ofNum 999, Cell.ofNum 999] 999 true 6 0 0
      = mainGo [Cell.ofNum 999, Cell.ofNum 999] 999 true 5 0 1)
    ∧ (getMeanMain 5 [Cell.ofNum 999, Cell.ofNum 999] 3 1 999
      = mainGo [Cell.ofNum 999, Cell.ofNum 999] 999 true 5 1 3) := by
  obtain ⟨h1, h2, h3, h4⟩ := getMean_widening_step
    [Cell.ofNum 999, Cell.ofNum 999] 0 0 999 5
  refine ⟨?_, h2 (by decide), h3 (by decide), ?_⟩
  · have := h1 (by decide) (by norm_num)
    simpa using this
  · exact (getMean_widening_step [Cell.ofNum 999, Cell.ofNum 999] 3 1 999 5).2.2.2
      (by norm_num)

/-- C3 counterexample: the claim, taken as a description of `main.js`'s
`getMean` (which its sources cite), is false: on the column
`["999", "999", "5"]` with the ordered range `[1, 1]` the claimed
behaviour — normalize, then widen one index on each side — reaches the
valid cell "5" after two widenings and yields 5 (the `getMeanSym`
value, which follows the claim's words); `main.js` instead widens only
`low`, never examines index 2, and is still looping after 40
iterations. -/
theorem getMean_main_asymmetric_widening :
    getMeanMain 40 [Cell.ofNum 999, Cell.ofNum 999, Cell.ofNum 5] 1 1 999 = none
    ∧ getMeanSym [Cell.ofNum 999, Cell.ofNum 999, Cell.ofNum 5] 1 1 999 = 5 := by
  have h5 : Cell.ofNum 5 = ⟨some 5, some 5⟩ := by norm_num [Cell.ofNum, jsTrunc]
  have h999 : Cell.ofNum 999 = ⟨some 999, some 999⟩ := by norm_num [Cell.ofNum, jsTrunc]
  constructor
  · decide
  · rw [h5, h999]
    unfold getMeanSym
    rw [if_neg (by norm_num), getMeanP0_unfold]
    have e1 : segAt [⟨some 999, some 999⟩, ⟨some 999, some 999⟩, ⟨some 5, some 5⟩]
        999 1 1 = [] := by decide
    rw [e1]
    norm_num
    rw [getMeanP0_unfold]
    have e2 : segAt [⟨some 999, some 999⟩, ⟨some 999, some 999⟩, ⟨some 5, some 5⟩]
        999 0 2 = [⟨some 5, some 5⟩] := by decide
    rw [e2]
    norm_num [segMean, round5]

/-! ### Claim C10 — negative-start slices and unseen valid values -/

/-- A 31-row column, all sentinel except a valid "5" at index 7 (just
above the requested range `[0, 6]`). -/
def blindCol : List Cell :=
  List.replicate 7 (Cell.ofNum 999) ++ [Cell.ofNum 5] ++ List.replicate 23 (Cell.ofNum 999)

/-- C10 counterexample: the claim asserts the slice is empty for every
`low`, `high` with `-L < low < 0` and `high + 1 ≤ L + low`, regardless
of the column's contents.  With `L = 10`, `low = -9`, `high = -6` the
premises hold (`-10 < -9 < 0`, `-5 ≤ 1`), yet
`slice(-9, -5)` selects indices 1..4 and is non-empty. -/
theorem jsSlice_negative_end_nonempty :
    ((List.replicate 10 (Cell.ofNum 1)).length : Int) = 10
    ∧ (-(10 : Int) < -9 ∧ (-9 : Int) < 0 ∧ (-6 : Int) + 1 ≤ 10 + (-9))
    ∧ jsSlice (List.replicate 10 (Cell.ofNum 1)) (-9) ((-6) + 1) ≠ [] := by
  refine ⟨by norm_num, by norm_num, ?_⟩
  decide

/-- C10 (amended, the extra hypothesis `0 ≤ high + 1` added — the slice
end must be non-negative, as it is in any widening that started from a
range with `high ≥ low ≥ 0`): whenever `-L < low < 0`,
`0 ≤ high + 1` and `high + 1 ≤ L + low`, the slice
`array.slice(low, high + 1)` is empty regardless of the column's
contents, so no value is examined in that iteration.  Consequently
(second conjunct), on the 31-row column with a valid value at index 7
and requested range `[0, 6]`, every window the widening examines is
empty — the negative `low` windows wrap to the far end of the array —
and `getMean` returns the fallback even though the valid index 7 lies
inside the nominally widened window `[low, high]` from the first
widening on. -/
theorem jsSlice_wrapped_window_blindness (a : List Cell) (low high : Int) :
    (-(a.length : Int) < low → low < 0 → 0 ≤ high + 1 →
      high + 1 ≤ (a.length : Int) + low → jsSlice a low (high + 1) = [])
    ∧ (blindCol.get? 7 = some (Cell.ofNum 5)
      ∧ validCell 999 (Cell.ofNum 5) = true
      ∧ getMeanP0 blindCol 0 6 999 = fallback) := by
  constructor
  · intro h1 h2 h3 h4
    unfold jsSlice
    dsimp only
    rw [if_pos h2, if_neg (by omega)]
    have hmax : max ((a.length : Int) + low) 0 = (a.length : Int) + low :=
      max_eq_left (by omega)
    have hmin : min (high + 1) (a.length : Int) = high + 1 :=
      min_eq_left (by omega)
    simp only [hmax, hmin]
    have : (high + 1 - ((a.length : Int) + low)).toNat = 0 := by omega
    rw [this]
    exact List.take_zero _
  · refine ⟨by decide, by decide, ?_⟩
    apply getMeanP0_exhaust blindCol 999 ((24 - ((6 : Int) - 0)).toNat) 0 6 rfl
    intro k hk
    rcases hk with h0 | hle
    · subst h0
      decide
    · have hk9 : k ≤ 9 := by omega
      interval_cases k <;> decide

/-- C10 witness: a concrete wrapped window — `L = 3`, `low = -2`,
`high = 0`, so `high + 1 = 1 = L + low` — whose slice is empty. -/
theorem jsSlice_wrapped_window_blindness_witness :
    jsSlice (List.replicate 3 (Cell.ofNum 1)) (-2) (0 + 1) = [] :=
  (jsSlice_wrapped_window_blindness (List.replicate 3 (Cell.ofNum 1)) (-2) 0).1
    (by norm_num) (by norm_num) (by norm_num) (by norm_num)

/-! ### Claims C2 and C6 — the feature-vector builders -/

/-- Event info with no scalars and an empty snapshot. -/
def infoEmpty : CmeInfo :=
  ⟨none, none, none, none, none, none, none, none, none, []⟩

/-- Event info whose snapshot resolves `Bz` to 3 (and nothing else). -/
def infoBz : CmeInfo :=
  ⟨none, none, none, none, none, none, none, none, none, [("Bz", 3)]⟩

/-- Event info with angular width 360 and mass 5. -/
def infoWm : CmeInfo :=
  ⟨none, none, some 360, some 5, none, none, none, none, none, []⟩

/-- C2 counterexample: the claim says the builder always returns
exactly N floats, with `0.0` for names found in neither table.  The
`main.js` builder instead skips unresolved names: requesting the single
name "Solar Wind Bz" — which the snapshot even resolves, under its
short key "Bz" — yields the empty vector, of length 0 ≠ 1. -/
theorem svm_main_drops_requested_name :
    windLookup infoBz.wind ("Bz") = some 3
    ∧ getSvmInputMain infoBz ["Solar Wind Bz"] = []
    ∧ (getSvmInputMain infoBz ["Solar Wind Bz"]).length
        ≠ (["Solar Wind Bz"] : List String).length := by
  refine ⟨by decide, ?_, ?_⟩
  · rw [svmInputMain_eq_filterMap]
    decide
  · rw [svmInputMain_eq_filterMap]
    decide

/-- C2 (amended): the `part_000` builder satisfies the claim — for
every request of length N it returns exactly N floats, and a requested
name that its combined feature map (event scalars and snapshot) does
not resolve contributes exactly `0.0` at its position.  The `main.js`
builder sorts the request and omits names it cannot resolve (including
every solar-wind name, which it looks up in the snapshot under the full
display name while the snapshot is keyed by short names), so its output
can be shorter than N (see the counterexample). -/
theorem svm_p0_length_and_default (info : CmeInfo) (fs : List String) :
    (getSvmInputP0 info fs).length = fs.length
    ∧ (∀ (i : Nat) (name : String), fs[i]? = some name →
        featureMapP0 info name = none → (getSvmInputP0 info fs)[i]? = some 0) := by
  constructor
  · rw [svmInputP0_eq_map]
    simp
  · intro i name hget hnone
    rw [svmInputP0_eq_map, List.getElem?_map, hget]
    simp [hnone]

/-- C2 witness: on the empty info, the two-name request resolves
nothing; the vector has length 2 and `0.0` at position 1. -/
theorem svm_p0_length_and_default_witness :
    (getSvmInputP0 infoEmpty ["Solar Wind Bz", "No Such Feature"]).length = 2
    ∧ (getSvmInputP0 infoEmpty ["Solar Wind Bz", "No Such Feature"])[1]? = some 0 := by
  constructor
  · exact (svm_p0_length_and_default infoEmpty
      ["Solar Wind Bz", "No Such Feature"]).1.trans (by rfl)
  · exact (svm_p0_length_and_default infoEmpty
      ["Solar Wind Bz", "No Such Feature"]).2 1 ("No Such Feature") (by rfl) (by decide)

/-- C6 counterexample: the claim says the i-th entry is the value
resolved for the i-th name as supplied by the caller, with no
reordering.  `main.js` sorts the request first: requesting
`["CME Mass", "CME Angular Width"]` with mass 5 and width 360 returns
`[360, 5]`, whose 0-th entry is not the value 5 of the 0-th requested
name "CME Mass". -/
theorem svm_main_sorts_request :
    getSvmInputMain infoWm ["CME Mass", "CME Angular Width"] = [360, 5]
    ∧ featureMapMain infoWm ("CME Mass") = some 5
    ∧ ((360 : ℚ) ≠ 5) := by
  have hsort : sortJs ["CME Mass", "CME Angular Width"]
      = ["CME Angular Width", "CME Mass"] := by
    simp [sortJs, insertLe]
    decide
  refine ⟨?_, by decide, by norm_num⟩
  rw [svmInputMain_eq_filterMap, hsort]
  decide

/-- C6 (amended): the `part_000` builder does satisfy the claim — the
i-th entry of its output is the value its combined feature map resolves
(with default `0.0`) for the i-th requested name, in caller order, the
event-scalar entries taking their fixed display names.  The `main.js`
builder instead sorts the request lexicographically and then keeps only
resolvable names, so its entries follow sorted order, not caller order
(see the counterexample). -/
theorem svm_builder_order (info : CmeInfo) (fs : List String) :
    (∀ (i : Nat) (name : String), fs[i]? = some name →
      (getSvmInputP0 info fs)[i]? = some ((featureMapP0 info name).getD 0))
    ∧ getSvmInputMain info fs = (sortJs fs).filterMap (resolveMain info) := by
  constructor
  · intro i name hget
    rw [svmInputP0_eq_map, List.getElem?_map, hget]
    rfl
  · exact svmInputMain_eq_filterMap info fs

/-- C6 witness: position 0 of a one-name request resolves that name. -/
theorem svm_builder_order_witness :
    (getSvmInputP0 infoWm ["CME Mass"])[0]?
      = some ((featureMapP0 infoWm ("CME Mass")).getD 0) :=
  (svm_builder_order infoWm ["CME Mass"]).1 0 ("CME Mass") (by rfl)

/-! ### Claim C8 — the time-index resolver -/

/-- C8: the resolver maps an onset to
(0-based day-of-year offset) × 24 + hour-of-day, with origin January 1,
00:00 of the onset's year; in particular it maps 2015-01-01T00:00:00 to
0, 2015-01-02T00:00:00 to 24 and 2015-12-28T12:12:00 to 8676
(361 × 24 + 12, non-leap year).  The last conjunct is the general
statement for any well-formed time-of-day and a date on or after
January 1. -/
theorem readOmni_index_resolution :
    readOmniIdx ⟨2015, 1, 1, 0, 0, 0⟩ = 0
    ∧ readOmniIdx ⟨2015, 1, 2, 0, 0, 0⟩ = 24
    ∧ readOmniIdx ⟨2015, 12, 28, 12, 12, 0⟩ = 8676
    ∧ (∀ t : DateTime, 0 ≤ t.hour → t.hour < 24 → 0 ≤ t.minute → t.minute < 60 →
        0 ≤ t.second → t.second < 60 → 0 ≤ dayOfYear0 t →
        readOmniIdx t = dayOfYear0 t * 24 + t.hour) := by
  refine ⟨?_, ?_, ?_, ?_⟩
  · norm_num [readOmniIdx, yearSecs, dayOfYear0, daysBeforeMonth, jan1, isLeap]
  · norm_num [readOmniIdx, yearSecs, dayOfYear0, daysBeforeMonth, jan1, isLeap]
  · norm_num [readOmniIdx, yearSecs, dayOfYear0, daysBeforeMonth, jan1, isLeap]
    rw [Int.tdiv_eq_ediv (by norm_num) (by norm_num)]
    decide
  · intro t h1 h2 h3 h4 h5 h6 h7
    have hjan : yearSecs (jan1 t.year) = 0 := by
      norm_num [yearSecs, jan1, dayOfYear0, daysBeforeMonth]
    have hys : 0 ≤ yearSecs t := by unfold yearSecs; omega
    have he : yearSecs t
        = dayOfYear0 t * 86400 + (t.hour * 3600 + t.minute * 60 + t.second) := by
      unfold yearSecs; ring
    unfold readOmniIdx
    dsimp only
    rw [hjan, sub_zero, Int.tdiv_eq_ediv hys (by norm_num)]
    omega

/-- C8 witness: the general conjunct applied at the default onset
2015-04-04T16:32:00 of `readOmni`. -/
theorem readOmni_index_resolution_witness :
    readOmniIdx ⟨2015, 4, 4, 16, 32, 0⟩ = dayOfYear0 ⟨2015, 4, 4, 16, 32, 0⟩ * 24 + 16 :=
  readOmni_index_resolution.2.2.2 ⟨2015, 4, 4, 16, 32, 0⟩ (by norm_num) (by norm_num)
    (by norm_num) (by norm_num) (by norm_num) (by norm_num)
    (by norm_num [dayOfYear0, daysBeforeMonth, isLeap])

/-! ### Claim C9 — arrival-time round trip -/

/-- C9: adding the transit time 66.8 hours (= 334/5, exactly
representable to the millisecond the calendar library works at) to the
onset 2015-12-28T12:12:00 yields the arrival 2015-12-31T07:00:00 at
second precision, and adding the negated transit time to that arrival
returns the original onset exactly (well within rounding tolerance). -/
theorem arrival_roundtrip_onset :
    addHours onsetEx (334 / 5) = ⟨2015, 12, 31, 7, 0, 0⟩
    ∧ addHours ⟨2015, 12, 31, 7, 0, 0⟩ (-(334 / 5)) = onsetEx := by
  constructor
  · simp [addHours, arrivalSecs, yearSecs, dayOfYear0, daysBeforeMonth, isLeap,
      onsetEx, ofYearSecs]
    norm_num
  · simp [addHours, arrivalSecs, yearSecs, dayOfYear0, daysBeforeMonth, isLeap,
      onsetEx, ofYearSecs]
    norm_num

/-! ### Claim C7 — no validation of the predicted transit time -/

/-- C7 counterexample: the claim says a non-positive transit (for
example -5) raises a distinguishable InvalidPrediction failure and
produces no calendar arrival.  The source of both entry points has no
validation branch at all: the arrival is computed unconditionally, and
transit -5 produces the calendar time 2015-12-28T07:12:00, five hours
before the onset. -/
theorem arrival_computed_for_negative_transit :
    addHours onsetEx (-5) = ⟨2015, 12, 28, 7, 12, 0⟩ := by
  simp [addHours, arrivalSecs, yearSecs, dayOfYear0, daysBeforeMonth, isLeap,
    onsetEx, ofYearSecs]
  norm_num

/-- C7 (amended): the pipeline applies no validation to the predicted
transit time — the embedded arrival computation is total, with no
failure path — and for every negative transit the computed arrival
strictly precedes the onset, i.e. a nonsensical calendar time is
produced rather than any InvalidPrediction failure.  (A NaN transit is
not representable in the rational model; the negative case already
falsifies the claim.) -/
theorem arrival_no_validation (t : DateTime) (travel : ℚ) (h : travel < 0) :
    arrivalSecs t travel < yearSecs t := by
  unfold arrivalSecs
  have hneg : travel * 3600 < 0 := mul_neg_of_neg_of_pos h (by norm_num)
  exact Int.floor_lt.mpr (by linarith)

/-- C7 witness: the general statement at the example onset and
transit -5. -/
theorem arrival_no_validation_witness :
    arrivalSecs onsetEx (-5) < yearSecs onsetEx :=
  arrival_no_validation onsetEx (-5) (by norm_num)
